import Mathlib

/-!
Verification of the AI-Guided SaaS MCP server (src/unnamed/part_002).

The server registers four request handlers in its constructor:
list-tools, call-tool, list-resources, read-resource.  All four are pure
functions of the request (no server state is read or written), so each is
embedded as a plain Lean function.  The JS `switch` dispatch on the tool
name / resource uri is embedded as a chain of string equality tests, the
`throw new Error(...)` of the default branches as `Except.error`, and a
returned object as `Except.ok`.
-/

namespace MCP

/-- A JSON value as it can occur in a call-tool `arguments` mapping for this
server: the declared schemas only mention strings and arrays of strings. -/
inductive ArgValue where
  | vstr (s : String)
  | varr (xs : List String)
deriving DecidableEq, Repr

/-- The `arguments` object of a call-tool request: a mapping from argument
name to value (JS object keys are unique; lookup is by exact key). -/
abbrev Args := List (String × ArgValue)

/-- JS string interpolation of an argument value inside a template literal:
a string interpolates to itself, an array joins its elements with ",". -/
def jsToString : ArgValue → String
  | .vstr s => s
  | .varr xs => String.intercalate "," xs

/-- JS truthiness of an argument value: the empty string is falsy, every
other string is truthy, and any array (even empty) is truthy. -/
def jsTruthy : ArgValue → Bool
  | .vstr s => s != ""
  | .varr _ => true

/-- Embedding of `args?.key`: the arguments object may itself be absent
(optional chaining), and a key may be absent from the mapping. -/
def lookupArg (args : Option Args) (key : String) : Option ArgValue :=
  match args with
  | none => none
  | some l => l.lookup key

/-- Embedding of the interpolated `v || dflt` pattern of the handlers
(`args?.language || 'unknown'`, `args?.framework || 'jest'`): an absent or
falsy value yields the default, otherwise the value is interpolated. -/
def jsOrString (v : Option ArgValue) (dflt : String) : String :=
  match v with
  | none => dflt
  | some a => if jsTruthy a then jsToString a else dflt

/-- One property entry of a tool input schema (part_002 lines 33-64). -/
structure SchemaProperty where
  name : String
  type : String
  description : String
  items : Option String
deriving DecidableEq, Repr

/-- A tool input schema: `type: 'object'` with named properties and the
list of required property names (part_002 lines 33-64). -/
structure InputSchema where
  type : String
  properties : List SchemaProperty
  required : List String
deriving DecidableEq, Repr

/-- A tool descriptor as returned by list-tools (part_002 lines 30-65). -/
structure Tool where
  name : String
  description : String
  inputSchema : InputSchema
deriving DecidableEq, Repr

/-- The result object of the list-tools handler (part_002 lines 28-67). -/
structure ListToolsResult where
  tools : List Tool
deriving DecidableEq, Repr

/-- The ListToolsRequestSchema handler (part_002 lines 28-67): it ignores
the request and returns the fixed three-tool catalog. -/
def listToolsHandler (_ : Unit) : ListToolsResult :=
  { tools :=
      [ { name := "analyze-code"
        , description := "Analyze code quality and provide improvement suggestions"
        , inputSchema :=
            { type := "object"
            , properties :=
                [ { name := "code", type := "string", description := "Code to analyze", items := none }
                , { name := "language", type := "string", description := "Programming language", items := none } ]
            , required := ["code", "language"] } }
      , { name := "generate-tests"
        , description := "Generate unit tests for provided code"
        , inputSchema :=
            { type := "object"
            , properties :=
                [ { name := "code", type := "string", description := "Code to generate tests for", items := none }
                , { name := "framework", type := "string", description := "Testing framework (jest, mocha, etc.)", items := none } ]
            , required := ["code"] } }
      , { name := "optimize-performance"
        , description := "Analyze and suggest performance optimizations"
        , inputSchema :=
            { type := "object"
            , properties :=
                [ { name := "code", type := "string", description := "Code to optimize", items := none }
                , { name := "metrics", type := "array", description := "Specific metrics to focus on", items := some "string" } ]
            , required := ["code"] } } ] }

/-- One content block of a call-tool success response. -/
structure ContentBlock where
  type : String
  text : String
deriving DecidableEq, Repr

/-- A call-tool success response (part_002 lines 75-103). -/
structure CallToolResult where
  content : List ContentBlock
deriving DecidableEq, Repr

/-- The text template of the analyze-code branch (part_002 line 79). -/
def analyzeCodeText (language : String) : String :=
  "Analyzing " ++ language ++ " code...\n\nCode Quality Report:\n- Structure: Good\n- Readability: Excellent\n- Suggestions: Consider adding type annotations"

/-- The text template of the generate-tests branch (part_002 line 90);
the source file's template literal escapes the backticks of the embedded
code fence. -/
def generateTestsText (framework : String) : String :=
  "Generated " ++ framework ++ " tests:\n```javascript\ndescribe(\x27YourFunction\x27, () => \x7b\n  it(\x27should work correctly\x27, () => \x7b\n    expect(yourFunction()).toBe(expected);\n  \x7d);\n\x7d);\n```"

/-- The text of the optimize-performance branch (part_002 line 100); the
source file literally contains the two characters U+00C2 U+00B2. -/
def optimizePerformanceText : String :=
  "Performance Analysis:\n- Current complexity: O(nÂ²)\n- Suggested optimization: Use Map for O(1) lookups\n- Potential improvement: 70% faster execution"

/-- The CallToolRequestSchema handler (part_002 lines 70-108): dispatch on
the tool name; the default branch throws `Unknown tool: <name>`. -/
def callToolHandler (name : String) (args : Option Args) : Except String CallToolResult :=
  if name = "analyze-code" then
    Except.ok { content := [ { type := "text", text := analyzeCodeText (jsOrString (lookupArg args "language") "unknown") } ] }
  else if name = "generate-tests" then
    Except.ok { content := [ { type := "text", text := generateTestsText (jsOrString (lookupArg args "framework") "jest") } ] }
  else if name = "optimize-performance" then
    Except.ok { content := [ { type := "text", text := optimizePerformanceText } ] }
  else
    Except.error ("Unknown tool: " ++ name)

/-- A resource descriptor as returned by list-resources
(part_002 lines 113-124). -/
structure Resource where
  uri : String
  name : String
  description : String
  mimeType : String
deriving DecidableEq, Repr

/-- The result object of the list-resources handler. -/
structure ListResourcesResult where
  resources : List Resource
deriving DecidableEq, Repr

/-- The ListResourcesRequestSchema handler (part_002 lines 111-126): it
ignores the request and returns the fixed two-resource catalog. -/
def listResourcesHandler (_ : Unit) : ListResourcesResult :=
  { resources :=
      [ { uri := "saas://docs/best-practices"
        , name := "Best Practices Guide"
        , description := "Comprehensive guide for SaaS development best practices"
        , mimeType := "text/markdown" }
      , { uri := "saas://templates/api"
        , name := "API Templates"
        , description := "Ready-to-use API endpoint templates"
        , mimeType := "application/json" } ] }

/-- One content entry of a read-resource success response. -/
structure ResourceContent where
  uri : String
  mimeType : String
  text : String
deriving DecidableEq, Repr

/-- A read-resource success response (part_002 lines 134-158). -/
structure ReadResourceResult where
  contents : List ResourceContent
deriving DecidableEq, Repr

/-- The payload of saas://templates/api: the source computes it as
`JSON.stringify(obj, null, 2)` of a fixed object; this is that exact
pretty-printed output (part_002 lines 150-155). -/
def apiTemplatesJson : String :=
  "\x7b\n  \"endpoints\": [\n    \x7b\n      \"method\": \"GET\",\n      \"path\": \"/api/users\",\n      \"description\": \"List users\"\n    \x7d,\n    \x7b\n      \"method\": \"POST\",\n      \"path\": \"/api/users\",\n      \"description\": \"Create user\"\n    \x7d\n  ]\n\x7d"

/-- The ReadResourceRequestSchema handler (part_002 lines 129-163):
dispatch on the uri; the default branch throws `Unknown resource: <uri>`. -/
def readResourceHandler (uri : String) : Except String ReadResourceResult :=
  if uri = "saas://docs/best-practices" then
    Except.ok { contents := [ { uri := uri, mimeType := "text/markdown", text := "# SaaS Best Practices\n\n1. **Security First**: Always validate input\n2. **Scalability**: Design for growth\n3. **Testing**: Maintain >80% coverage" } ] }
  else if uri = "saas://templates/api" then
    Except.ok { contents := [ { uri := uri, mimeType := "application/json", text := apiTemplatesJson } ] }
  else
    Except.error ("Unknown resource: " ++ uri)

/-- The required-argument names a tool's catalog entry declares, looked up
in the list-tools catalog; an unregistered name declares nothing. -/
def requiredArgsOf (name : String) : List String :=
  match (listToolsHandler ()).tools.find? (fun t => t.name = name) with
  | some t => t.inputSchema.required
  | none => []

/-- Presence of an argument in the mapping of a call-tool request. -/
def hasArg (args : Option Args) (key : String) : Bool :=
  (lookupArg args key).isSome

/-- How the process ends, as a function of whether the stdio transport
connected (part_002 lines 168-178). -/
inductive ConnectOutcome where
  | ok
  | failed (err : String)
deriving DecidableEq, Repr

/-- Exit status and error log of the finished process. -/
structure ProcessExit where
  exitCode : Nat
  stderrLog : List String
deriving DecidableEq, Repr

/-- Startup of the process (part_002 lines 171-174): if `server.connect`
rejects, the catch handler logs a diagnostic via console.error (which joins
its two arguments with a space) and calls `process.exit(1)`.
Modelled from the spec: the clean-shutdown branch — the source never calls
`process.exit` on the success path, and the exit status 0 of a clean Node
shutdown is runtime behavior outside this repository; the spec fixes it as
"0 on clean shutdown". -/
def serverMain : ConnectOutcome → ProcessExit
  | .failed e => { exitCode := 1, stderrLog := ["Failed to start AI-Guided SaaS MCP server: " ++ e] }
  | .ok => { exitCode := 0, stderrLog := [] }

/-- Substring containment: `pat` occurs contiguously inside `s`. -/
def strContains (s pat : String) : Prop :=
  pat.data <:+: s.data

instance (s pat : String) : Decidable (strContains s pat) :=
  inferInstanceAs (Decidable (pat.data <:+: s.data))

/-- The character data of a concatenation is the concatenation of the
character data. -/
theorem string_data_append (s t : String) : (s ++ t).data = s.data ++ t.data := by
  cases s
  cases t
  rfl



/-- C4: list-tools, for any input, returns exactly 3 tool descriptors named
analyze-code, generate-tests, optimize-performance, in that order. -/
theorem list_tools_exactly_three_in_order :
    (listToolsHandler ()).tools.length = 3 ∧
    (listToolsHandler ()).tools.map Tool.name =
      ["analyze-code", "generate-tests", "optimize-performance"] :=
  ⟨rfl, rfl⟩

/-- C1: a call-tool request whose name is outside the tool catalog and a
read-resource request whose uri is outside the resource catalog both fail
with the corresponding unknown-name error, never a success. -/
theorem unknown_name_always_fails (name uri : String) (args : Option Args)
    (ht : name ∉ (listToolsHandler ()).tools.map Tool.name)
    (hr : uri ∉ (listResourcesHandler ()).resources.map Resource.uri) :
    callToolHandler name args = Except.error ("Unknown tool: " ++ name) ∧
    readResourceHandler uri = Except.error ("Unknown resource: " ++ uri) := by
  have h1 : name ≠ "analyze-code" := by intro h; exact ht (by rw [h]; decide)
  have h2 : name ≠ "generate-tests" := by intro h; exact ht (by rw [h]; decide)
  have h3 : name ≠ "optimize-performance" := by intro h; exact ht (by rw [h]; decide)
  have g1 : uri ≠ "saas://docs/best-practices" := by intro h; exact hr (by rw [h]; decide)
  have g2 : uri ≠ "saas://templates/api" := by intro h; exact hr (by rw [h]; decide)
  exact ⟨by simp [callToolHandler, h1, h2, h3], by simp [readResourceHandler, g1, g2]⟩

/-- C1 witness: the unregistered tool name "nonexistent-tool" and the
unregistered uri "saas://unknown" both fail with the unknown-name error. -/
theorem unknown_name_always_fails_witness :
    callToolHandler "nonexistent-tool" (some []) =
      Except.error ("Unknown tool: " ++ "nonexistent-tool") ∧
    readResourceHandler "saas://unknown" =
      Except.error ("Unknown resource: " ++ "saas://unknown") :=
  unknown_name_always_fails "nonexistent-tool" "saas://unknown" (some []) (by decide) (by decide)

/-- C2 counterexample: analyze-code declares "language" as required, yet a
request whose argument mapping lacks "language" still produces a success
response (the handler defaults the language to "unknown"). -/
theorem missing_required_arg_still_succeeds_cx :
    hasArg (some [("code", ArgValue.vstr "x")]) "language" = false ∧
    "language" ∈ requiredArgsOf "analyze-code" ∧
    callToolHandler "analyze-code" (some [("code", ArgValue.vstr "x")]) =
      Except.ok { content := [ { type := "text", text := analyzeCodeText "unknown" } ] } :=
  ⟨rfl, by decide, rfl⟩

/-- C2 amended: a call-tool request naming a registered tool succeeds for
every argument mapping, whether or not the required arguments declared in
the tool's input schema are present; no presence validation is performed. -/
theorem call_tool_registered_always_succeeds (name : String) (args : Option Args)
    (h : name ∈ (listToolsHandler ()).tools.map Tool.name) :
    ∃ r : CallToolResult, callToolHandler name args = Except.ok r := by
  have hn : name = "analyze-code" ∨ name = "generate-tests" ∨ name = "optimize-performance" := by
    simpa [listToolsHandler] using h
  rcases hn with h | h | h <;> subst h <;> exact ⟨_, rfl⟩

/-- C2 amended witness: a generate-tests request with an empty argument
mapping (its required "code" absent) succeeds. -/
theorem call_tool_registered_always_succeeds_witness :
    ∃ r : CallToolResult, callToolHandler "generate-tests" (some []) = Except.ok r :=
  call_tool_registered_always_succeeds "generate-tests" (some []) (by decide)

/-- C3: a call-tool request naming a registered tool with every required
argument of that tool's input schema present succeeds, and the success
response has a content block of type "text". -/
theorem call_tool_required_args_gives_text (name : String) (args : Option Args)
    (hname : name ∈ (listToolsHandler ()).tools.map Tool.name)
    (hreq : ∀ k ∈ requiredArgsOf name, hasArg args k = true) :
    ∃ r : CallToolResult, callToolHandler name args = Except.ok r ∧
      ∃ b ∈ r.content, b.type = "text" := by
  have hn : name = "analyze-code" ∨ name = "generate-tests" ∨ name = "optimize-performance" := by
    simpa [listToolsHandler] using hname
  rcases hn with h | h | h <;> subst h <;>
    exact ⟨_, rfl, _, List.mem_singleton.mpr rfl, rfl⟩

/-- C3 witness: analyze-code called with both required arguments ("code"
and "language") present succeeds with a "text" content block. -/
theorem call_tool_required_args_gives_text_witness :
    ∃ r : CallToolResult,
      callToolHandler "analyze-code"
          (some [("code", ArgValue.vstr "x"), ("language", ArgValue.vstr "python")]) =
        Except.ok r ∧
      ∃ b ∈ r.content, b.type = "text" :=
  call_tool_required_args_gives_text "analyze-code"
    (some [("code", ArgValue.vstr "x"), ("language", ArgValue.vstr "python")])
    (by decide) (by decide)

/-- C5: reading any uri of the list-resources catalog succeeds, and every
content block of the response carries exactly the mimeType the catalog
declares for that uri. -/
theorem read_resource_mime_matches_catalog (r : Resource)
    (h : r ∈ (listResourcesHandler ()).resources) :
    ∃ resp : ReadResourceResult, readResourceHandler r.uri = Except.ok resp ∧
      resp.contents ≠ [] ∧ ∀ c ∈ resp.contents, c.mimeType = r.mimeType := by
  have hr : r = { uri := "saas://docs/best-practices"
                , name := "Best Practices Guide"
                , description := "Comprehensive guide for SaaS development best practices"
                , mimeType := "text/markdown" } ∨
      r = { uri := "saas://templates/api"
          , name := "API Templates"
          , description := "Ready-to-use API endpoint templates"
          , mimeType := "application/json" } := by
    simpa [listResourcesHandler] using h
  rcases hr with h | h <;> subst h <;> refine ⟨_, rfl, ?_, ?_⟩ <;> decide

/-- C5 witness: reading saas://docs/best-practices succeeds with content of
mimeType text/markdown, the mimeType its catalog entry declares. -/
theorem read_resource_mime_matches_catalog_witness :
    ∃ resp : ReadResourceResult,
      readResourceHandler
          (Resource.uri { uri := "saas://docs/best-practices"
                        , name := "Best Practices Guide"
                        , description := "Comprehensive guide for SaaS development best practices"
                        , mimeType := "text/markdown" }) =
        Except.ok resp ∧
      resp.contents ≠ [] ∧
      ∀ c ∈ resp.contents,
        c.mimeType = Resource.mimeType
          { uri := "saas://docs/best-practices"
          , name := "Best Practices Guide"
          , description := "Comprehensive guide for SaaS development best practices"
          , mimeType := "text/markdown" } :=
  read_resource_mime_matches_catalog
    { uri := "saas://docs/best-practices"
    , name := "Best Practices Guide"
    , description := "Comprehensive guide for SaaS development best practices"
    , mimeType := "text/markdown" }
    (by decide)

/-- C6: generate-tests with a "code" argument and "framework" omitted
succeeds, and the returned text contains "describe(" and the default
framework marker "jest". -/
theorem generate_tests_default_jest (code : String) :
    ∃ b : ContentBlock,
      callToolHandler "generate-tests" (some [("code", ArgValue.vstr code)]) =
        Except.ok { content := [b] } ∧
      b.type = "text" ∧ strContains b.text "describe(" ∧ strContains b.text "jest" :=
  ⟨{ type := "text", text := generateTestsText "jest" }, rfl, rfl, by decide, by decide⟩

/-- C7: analyze-code with a "language" argument succeeds, and the supplied
language value appears in the returned text (for language "python" the text
contains "python"). -/
theorem analyze_code_language_in_text (code lang : String) :
    ∃ b : ContentBlock,
      callToolHandler "analyze-code"
          (some [("code", ArgValue.vstr code), ("language", ArgValue.vstr lang)]) =
        Except.ok { content := [b] } ∧
      b.type = "text" ∧ strContains b.text lang := by
  by_cases hl : lang = ""
  · subst hl
    exact ⟨{ type := "text", text := analyzeCodeText "unknown" }, rfl, rfl,
      ⟨[], (analyzeCodeText "unknown").data, by simp⟩⟩
  · refine ⟨{ type := "text", text := analyzeCodeText lang }, ?_, rfl, ?_⟩
    · simp [callToolHandler, lookupArg, List.lookup, jsOrString, jsTruthy, jsToString, hl]
    · exact ⟨"Analyzing ".data,
        (" code...\n\nCode Quality Report:\n- Structure: Good\n- Readability: Excellent\n- Suggestions: Consider adding type annotations").data,
        by simp [analyzeCodeText, string_data_append]⟩

/-- C8: list-tools and list-resources are deterministic and idempotent:
any two invocations return identical catalogs. -/
theorem list_handlers_idempotent (u v : Unit) :
    listToolsHandler u = listToolsHandler v ∧
    listResourcesHandler u = listResourcesHandler v :=
  ⟨rfl, rfl⟩

/-- C9: if the stdio transport fails to open, the process logs a diagnostic
and exits with status 1; on clean shutdown the exit status is 0. -/
theorem startup_failure_exit_one (e : String) :
    (serverMain (ConnectOutcome.failed e)).exitCode = 1 ∧
    (serverMain (ConnectOutcome.failed e)).stderrLog =
      ["Failed to start AI-Guided SaaS MCP server: " ++ e] ∧
    (serverMain ConnectOutcome.ok).exitCode = 0 :=
  ⟨rfl, rfl, rfl⟩

/-- C10: the tool handlers never read the "code" (or "metrics") argument:
two analyze-code requests agreeing on "language" yield identical responses,
two generate-tests requests agreeing on "framework" yield identical
responses, and any two optimize-performance requests yield identical
responses. -/
theorem handlers_ignore_code_argument :
    (∀ a1 a2 : Option Args,
        lookupArg a1 "language" = lookupArg a2 "language" →
        callToolHandler "analyze-code" a1 = callToolHandler "analyze-code" a2) ∧
    (∀ a1 a2 : Option Args,
        lookupArg a1 "framework" = lookupArg a2 "framework" →
        callToolHandler "generate-tests" a1 = callToolHandler "generate-tests" a2) ∧
    (∀ a1 a2 : Option Args,
        callToolHandler "optimize-performance" a1 = callToolHandler "optimize-performance" a2) := by
  have e1 : ∀ a : Option Args, callToolHandler "analyze-code" a =
      Except.ok { content := [ { type := "text", text := analyzeCodeText (jsOrString (lookupArg a "language") "unknown") } ] } :=
    fun _ => rfl
  have e2 : ∀ a : Option Args, callToolHandler "generate-tests" a =
      Except.ok { content := [ { type := "text", text := generateTestsText (jsOrString (lookupArg a "framework") "jest") } ] } :=
    fun _ => rfl
  refine ⟨fun a1 a2 h => ?_, fun a1 a2 h => ?_, fun a1 a2 => rfl⟩
  · rw [e1 a1, e1 a2, h]
  · rw [e2 a1, e2 a2, h]

/-- C10 witness: two analyze-code requests with different "code" values but
the same "language" produce the same response. -/
theorem handlers_ignore_code_argument_witness :
    callToolHandler "analyze-code"
        (some [("code", ArgValue.vstr "let x = 1"), ("language", ArgValue.vstr "typescript")]) =
      callToolHandler "analyze-code"
        (some [("code", ArgValue.vstr "function f() \x7b return 2; \x7d"), ("language", ArgValue.vstr "typescript")]) :=
  handlers_ignore_code_argument.1
    (some [("code", ArgValue.vstr "let x = 1"), ("language", ArgValue.vstr "typescript")])
    (some [("code", ArgValue.vstr "function f() \x7b return 2; \x7d"), ("language", ArgValue.vstr "typescript")])
    rfl

end MCP
